import Mathlib

/-!
Verification development for the TinyStepsBD storefront scripts.

The JavaScript sources are shallowly embedded:
  - `assets/js/cart.js` (CartManager): cart lines, addToCart, removeFromCart,
    updateQuantity, clearCart, increaseQuantity, decreaseQuantity,
    validateCartItems;
  - `assets/js/data-manager.js` (DataManager and the utility functions):
    processProducts, getProductById, isProductsLoaded, calculateDeliveryFee,
    validatePhone, validateEmail;
  - the checkout script (CheckoutManager): getDeliveryArea, validateField.

Modelling conventions:
  - JS strings are `String` when only compared for equality, and `List Char`
    when scanned character by character (substring search, regexes, trimming).
    `String.toLowerCase` is modelled as ASCII lowercasing, which agrees with
    JS on every character appearing in the embedded string constants
    (ASCII letters and Bengali, which has no case).
  - JS numbers that hold integral quantities/prices are `Int`.
  - The `color`/`size` fields of a cart item can be `undefined`, `null` or a
    string, and JS strict equality distinguishes all three, so they are
    embedded as the inductive type `JSStr`.
  - Array indices coming from the DOM are `Int`, matching the JS guards
    `index >= 0 && index < length`.
  - Operations that throw a TypeError before mutating anything (reading
    `this.cart[index].quantity` on an out-of-range index) return `Option`,
    with `none` for the throw.
  - `new Date().toISOString()` is passed in as an explicit `now` argument.
  - `Math.random()` inside determineProductBadge is passed in as an explicit
    badge oracle argument.
-/

/-- A JS value that is either `undefined`, `null`, or a string; used for the
optional `color`/`size` fields, which JS strict equality distinguishes. -/
inductive JSStr where
  | undef : JSStr
  | null : JSStr
  | str : String → JSStr
deriving DecidableEq

/-- JS truthiness of a `JSStr`: only a non-empty string is truthy. -/
def jsTruthy : JSStr → Bool
  | JSStr.undef => false
  | JSStr.null => false
  | JSStr.str s => s != ""

/-- The JS idiom `x || null` as applied to `color`/`size` in cart.js line 88. -/
def jsNorm (v : JSStr) : JSStr := if jsTruthy v then v else JSStr.null

/-- Membership in the JS regex character class `\s` (whitespace). -/
def isJsWs (c : Char) : Bool :=
  c.toNat == 9 || c.toNat == 10 || c.toNat == 11 || c.toNat == 12 || c.toNat == 13 ||
  c.toNat == 32 || c.toNat == 0xa0 || c.toNat == 0x1680 ||
  (0x2000 ≤ c.toNat && c.toNat ≤ 0x200a) ||
  c.toNat == 0x2028 || c.toNat == 0x2029 || c.toNat == 0x202f || c.toNat == 0x205f ||
  c.toNat == 0x3000 || c.toNat == 0xfeff

/-- `phone.replace(/\s+/g, '')` from data-manager.js line 367: removing every
run of whitespace is removing every whitespace character. -/
def removeWs (s : List Char) : List Char := s.filter (fun c => !isJsWs c)

/-- `String.prototype.trim()`. -/
def jsTrim (s : List Char) : List Char :=
  ((s.dropWhile isJsWs).reverse.dropWhile isJsWs).reverse

/-- `String.prototype.toLowerCase()`, modelled as ASCII lowercasing (see the
module docstring). -/
def jsToLower (s : List Char) : List Char := s.map Char.toLower

/-- Bool-valued check that the first list is an initial segment of the second. -/
def leadsWith : List Char → List Char → Bool
  | [], _ => true
  | _ :: _, [] => false
  | p :: ps, h :: hs => p == h && leadsWith ps hs

/-- `String.prototype.includes(pat)`: some suffix of the haystack starts
with the pattern. -/
def hasSub : List Char → List Char → Bool
  | [], pat => pat.isEmpty
  | h :: t, pat => leadsWith pat (h :: t) || hasSub t pat

/-- A stored cart line, as pushed by `CartManager.addToCart`
(cart.js lines 82-91) and persisted to localStorage. -/
structure CartLine where
  id : String
  name : String
  price : Int
  image : String
  quantity : Int
  color : JSStr
  size : JSStr
  addedAt : String
deriving DecidableEq

/-- The argument object of `CartManager.addToCart(item)`. Its `quantity`
field may be absent (`none`). -/
structure CartItem where
  id : String
  name : String
  price : Int
  image : String
  quantity : Option Int
  color : JSStr
  size : JSStr
deriving DecidableEq

/-- The JS idiom `item.quantity || 1` (cart.js lines 80 and 87): an absent or
zero (falsy) quantity becomes 1. -/
def effQuantity : Option Int → Int
  | none => 1
  | some v => if v = 0 then 1 else v

/-- The merge test of cart.js lines 73-77: strict equality of the
(id, color, size) triple against an existing line. -/
def lineMatches (it : CartItem) (l : CartLine) : Bool :=
  l.id == it.id && l.color == it.color && l.size == it.size

/-- The object pushed by cart.js lines 82-91 when no existing line matches. -/
def newCartLine (it : CartItem) (now : String) : CartLine :=
  { id := it.id, name := it.name, price := it.price, image := it.image,
    quantity := effQuantity it.quantity,
    color := jsNorm it.color, size := jsNorm it.size, addedAt := now }

/-- The find-or-push loop of `addToCart`: bump the first line whose
(id, color, size) triple strictly equals the item, else append a new line. -/
def addLoop (it : CartItem) (now : String) : List CartLine → List CartLine
  | [] => [newCartLine it now]
  | l :: ls =>
    if lineMatches it l then
      { l with quantity := l.quantity + effQuantity it.quantity } :: ls
    else
      l :: addLoop it now ls

/-- `CartManager.addToCart` (cart.js lines 67-97). A falsy `item.id`
(undefined/null/empty, collapsed here to `""`) makes it a no-op. -/
def addToCart (cart : List CartLine) (it : CartItem) (now : String) : List CartLine :=
  if it.id = "" then cart else addLoop it now cart

/-- `CartManager.removeFromCart` (cart.js lines 103-110): splice out the line
when `index >= 0 && index < length`, else do nothing. -/
def removeFromCart (cart : List CartLine) (index : Int) : List CartLine :=
  if 0 ≤ index ∧ index < cart.length then cart.eraseIdx index.toNat else cart

/-- `CartManager.updateQuantity` (cart.js lines 117-124): overwrite the
quantity when `index >= 0 && index < length && quantity > 0`, else do
nothing. No upper bound is checked. -/
def updateQuantity (cart : List CartLine) (index quantity : Int) : List CartLine :=
  if 0 ≤ index ∧ index < cart.length ∧ 0 < quantity then
    match cart[index.toNat]? with
    | some item => cart.set index.toNat { item with quantity := quantity }
    | none => cart
  else cart

/-- `CartManager.clearCart` (cart.js lines 129-134). -/
def clearCart (_cart : List CartLine) : List CartLine := []

/-- The JS read `this.cart[index]` with an `Int` index: `none` when out of
range (in JS the value `undefined`, on which reading `.quantity` throws). -/
def cartIndex (cart : List CartLine) (index : Int) : Option CartLine :=
  if 0 ≤ index then cart[index.toNat]? else none

/-- `CartManager.decreaseQuantity` (cart.js lines 345-352); `none` models the
TypeError thrown on an out-of-range index. -/
def decreaseQuantity (cart : List CartLine) (index : Int) : Option (List CartLine) :=
  (cartIndex cart index).map fun item =>
    if item.quantity > 1 then updateQuantity cart index (item.quantity - 1)
    else removeFromCart cart index

/-- `CartManager.increaseQuantity` (cart.js lines 358-365); at quantity 10 it
only shows a notification and leaves the cart unchanged. -/
def increaseQuantity (cart : List CartLine) (index : Int) : Option (List CartLine) :=
  (cartIndex cart index).map fun item =>
    if item.quantity < 10 then updateQuantity cart index (item.quantity + 1)
    else cart

/-- A raw spreadsheet record as consumed by `DataManager.processProducts`
(data-manager.js lines 136-165); all sheet cells are strings. -/
structure RawProduct where
  productId : String
  name : String
  description : String
  priceBDT : String
  category : String
  size : String
  color : String
  driveLink : String
  imageFolder : String
  mainImage : String
  image1 : String
  image2 : String
  image3 : String
  image4 : String
  image5 : String
  image6 : String
deriving DecidableEq

/-- A processed catalog product (data-manager.js lines 137-159). -/
structure Product where
  id : String
  name : String
  description : String
  price : Int
  category : String
  size : String
  color : String
  driveLink : String
  imageFolder : String
  mainImage : String
  images : List String
  inStock : Bool
  featured : Bool
  badge : String
deriving DecidableEq

/-- Value of a run of decimal digits. -/
def decDigitsVal (ds : List Char) : Nat :=
  ds.foldl (fun acc c => 10 * acc + (c.toNat - '0'.toNat)) 0

/-- Hexadecimal digit test for `parseInt` radix-16 handling. -/
def isHexDigitCh (c : Char) : Bool :=
  c.isDigit || ('a' ≤ c.toLower && c.toLower ≤ 'f')

/-- Value of one hexadecimal digit. -/
def hexDigitVal (c : Char) : Nat :=
  if c.isDigit then c.toNat - '0'.toNat else c.toLower.toNat - 'a'.toNat + 10

/-- Value of a run of hexadecimal digits. -/
def hexDigitsVal (ds : List Char) : Nat :=
  ds.foldl (fun acc c => 16 * acc + hexDigitVal c) 0

/-- Digit-run parsing of `parseInt` after sign handling: a leading `0x`/`0X`
switches to base 16; `none` is JS `NaN` (no digits at all). -/
def jsParseIntCore (u : List Char) : Option Nat :=
  match u with
  | '0' :: c :: r =>
    if c == 'x' || c == 'X' then
      let ds := r.takeWhile isHexDigitCh
      if ds.isEmpty then none else some (hexDigitsVal ds)
    else
      let ds := (('0' : Char) :: c :: r).takeWhile Char.isDigit
      if ds.isEmpty then none else some (decDigitsVal ds)
  | _ =>
    let ds := u.takeWhile Char.isDigit
    if ds.isEmpty then none else some (decDigitsVal ds)

/-- `parseInt(string)`: skip leading whitespace, read an optional sign, then
a digit run; `none` is JS `NaN`. -/
def jsParseInt (s : List Char) : Option Int :=
  let t := s.dropWhile isJsWs
  match t with
  | '-' :: r => (jsParseIntCore r).map (fun n => -(n : Int))
  | '+' :: r => (jsParseIntCore r).map (fun n => (n : Int))
  | _ => (jsParseIntCore t).map (fun n => (n : Int))

/-- The per-record mapping of `processProducts` (data-manager.js lines
137-159), with the random badge supplied as an argument.
`parseInt(product['Price (BDT)']) || 0` turns an unparsable price into 0. -/
def mkProduct (badge : String) (p : RawProduct) : Product :=
  { id := p.productId, name := p.name, description := p.description,
    price := (jsParseInt p.priceBDT.data).getD 0,
    category := p.category, size := p.size, color := p.color,
    driveLink := p.driveLink, imageFolder := p.imageFolder,
    mainImage := p.mainImage,
    images := ([p.mainImage, p.image1, p.image2, p.image3,
                p.image4, p.image5, p.image6]).filter
      (fun img => img != "" && !(jsTrim img.data).isEmpty),
    inStock := true, featured := false, badge := badge }

/-- `DataManager.processProducts` (data-manager.js lines 136-165): map every
raw record, then keep only products with a truthy id, a truthy name, and a
price strictly above 0. -/
def processProducts (badge : RawProduct → String) (products : List RawProduct) :
    List Product :=
  (products.map (fun p => mkProduct (badge p) p)).filter
    (fun q => decide (q.id ≠ "" ∧ q.name ≠ "" ∧ 0 < q.price))

/-- `DataManager.getProductById` (data-manager.js lines 326-328). -/
def getProductById (products : List Product) (productId : String) : Option Product :=
  products.find? (fun p => p.id == productId)

/-- `DataManager.isProductsLoaded` (data-manager.js lines 334-336). -/
def isProductsLoaded (products : List Product) : Bool :=
  decide (0 < products.length)

/-- The body of the forEach in `validateCartItems` (cart.js lines 315-328):
a line whose product is found is refreshed from the catalog, otherwise it is
dropped. -/
def refreshLine (products : List Product) (item : CartLine) : Option CartLine :=
  (getProductById products item.id).map fun p =>
    { item with name := p.name, price := p.price, image := p.mainImage }

/-- `CartManager.validateCartItems` (cart.js lines 309-339). Returns the new
cart, whether `saveCart` ran, and whether the removal notification was shown.
The source sets `this.cart = validCart` and only afterwards compares
`validCart.length !== this.cart.length`, so the comparison is between
`validCart.length` and itself. -/
def validateCartItems (products : List Product) (cart : List CartLine) :
    List CartLine × Bool × Bool :=
  if !isProductsLoaded products then (cart, false, false)
  else
    let validCart := cart.filterMap (refreshLine products)
    let hasChanges := cart.any (fun item => (getProductById products item.id).isNone)
    if hasChanges then
      (validCart, true, validCart.length != validCart.length)
    else
      (cart, false, false)

/-- The Dhaka-area list of `calculateDeliveryFee` (data-manager.js line 678). -/
def dhakaAreas : List (List Char) :=
  ["ঢাকা".data, "Dhaka".data, "DHAKA".data, "মিরপুর".data, "উত্তরা".data,
   "গুলশান".data, "বনানী".data, "ধানমন্ডি".data, "মোহাম্মদপুর".data,
   "ফার্মগেট".data, "শাহবাগ".data, "যাত্রাবাড়ী".data, "রামপুরা".data,
   "বাড্ডা".data]

/-- The utility function `calculateDeliveryFee` (data-manager.js lines
675-686). -/
def calculateDeliveryFee (address : List Char) : Int :=
  if address.isEmpty then 150
  else
    let addressLower := jsToLower address
    if dhakaAreas.any (fun area => hasSub addressLower (jsToLower area)) then 80
    else 150

/-- The Dhaka-area list duplicated inside `CheckoutManager.getDeliveryArea`
(checkout script line 355); byte-identical to `dhakaAreas`. -/
def dhakaAreasCheckout : List (List Char) :=
  ["ঢাকা".data, "Dhaka".data, "DHAKA".data, "মিরপুর".data, "উত্তরা".data,
   "গুলশান".data, "বনানী".data, "ধানমন্ডি".data, "মোহাম্মদপুর".data,
   "ফার্মগেট".data, "শাহবাগ".data, "যাত্রাবাড়ী".data, "রামপুরা".data,
   "বাড্ডা".data]

/-- `CheckoutManager.getDeliveryArea` (checkout script lines 352-363). -/
def getDeliveryArea (address : List Char) : String :=
  if address.isEmpty then "outside"
  else
    let addressLower := jsToLower address
    if dhakaAreasCheckout.any (fun area => hasSub addressLower (jsToLower area)) then
      "inside_dhaka"
    else "outside_dhaka"

/-- The scan condition of the delivery-fee policy, for stating claims: the
lowercased address contains the lowercased form of some listed Dhaka area. -/
def mentionsDhakaArea (address : List Char) : Bool :=
  dhakaAreas.any (fun area => hasSub (jsToLower address) (jsToLower area))

/-- The group `(?:\d{11}|\d{13})` of the phone regex: a pure digit string of
length 11 or 13. -/
def digitBlock (t : List Char) : Bool :=
  t.all Char.isDigit && (t.length == 11 || t.length == 13)

/-- Membership in the language of `/^(?:\+88|01)?(?:\d{11}|\d{13})$/`
(data-manager.js line 366). -/
def bdPhoneMatch (s : List Char) : Bool :=
  digitBlock s ||
  (leadsWith "+88".data s && digitBlock (s.drop 3)) ||
  (leadsWith "01".data s && digitBlock (s.drop 2))

/-- The utility `validatePhone` (data-manager.js lines 365-368): strip all
whitespace, then test the Bangladeshi mobile pattern. -/
def validatePhone (phone : List Char) : Bool :=
  bdPhoneMatch (removeWs phone)

/-- Membership in the regex class `[^\s@]`. -/
def emailOkChar (c : Char) : Bool := !isJsWs c && c != '@'

/-- The part after the `@` must split as `[^\s@]+ . [^\s@]+`: some dot sits
strictly inside the tail. -/
def emailTailOk (t : List Char) : Bool :=
  (List.range t.length).any fun i =>
    decide (1 ≤ i) && decide (i + 1 < t.length) && (t[i]? == some '.')

/-- The utility `validateEmail` (data-manager.js lines 375-378): membership
in the language of `/^[^\s@]+@[^\s@]+\.[^\s@]+$/`. -/
def validateEmail (email : List Char) : Bool :=
  let beforeAt := email.takeWhile (fun c => c != '@')
  match email.drop beforeAt.length with
  | '@' :: t =>
    !beforeAt.isEmpty && beforeAt.all emailOkChar && t.all emailOkChar && emailTailOk t
  | _ => false

/-- The pure validation outcome of `CheckoutManager.validateField`
(checkout script lines 99-132): the input value is trimmed, then checked
per field name; unknown fields pass. -/
def validateField (fieldName : String) (value : List Char) : Bool :=
  let v := jsTrim value
  if fieldName = "customer_name" then decide (2 ≤ v.length)
  else if fieldName = "phone" then validatePhone v
  else if fieldName = "address" then decide (10 ≤ v.length)
  else if fieldName = "email" then (if v.isEmpty then true else validateEmail v)
  else true

/-- The documented cart invariant: every line quantity lies in [1, 10]. -/
def quantityInRange (cart : List CartLine) : Prop :=
  ∀ l ∈ cart, 1 ≤ l.quantity ∧ l.quantity ≤ 10

/-- The lower half of the invariant: every line quantity is at least 1. -/
def quantityPositive (cart : List CartLine) : Prop :=
  ∀ l ∈ cart, 1 ≤ l.quantity

instance (cart : List CartLine) : Decidable (quantityInRange cart) := by
  unfold quantityInRange; infer_instance

instance (cart : List CartLine) : Decidable (quantityPositive cart) := by
  unfold quantityPositive; infer_instance

/-- Sample cart line used by concrete witnesses and counterexamples. -/
def sampleLine : CartLine :=
  { id := "p1", name := "n", price := 100, image := "i", quantity := 2,
    color := JSStr.null, size := JSStr.null, addedAt := "t" }

/-- Sample cart line already at the documented maximum quantity 10. -/
def sampleLine10 : CartLine := { sampleLine with quantity := 10 }

/-- Sample cart line for a second product id. -/
def sampleLineB : CartLine := { sampleLine with id := "p2" }

/-- Sample `addToCart` argument for product p1, quantity 1. -/
def sampleItem1 : CartItem :=
  { id := "p1", name := "n", price := 100, image := "i", quantity := some 1,
    color := JSStr.null, size := JSStr.null }

/-- Sample `addToCart` argument with the falsy quantity 0. -/
def sampleItem0 : CartItem := { sampleItem1 with quantity := some 0 }

/-- Sample catalog product for id p1 whose name, price, and image differ from
the snapshot stored in `sampleLine`. -/
def sampleProduct : Product :=
  { id := "p1", name := "New Name", description := "", price := 200,
    category := "", size := "", color := "", driveLink := "", imageFolder := "",
    mainImage := "img2", images := [], inStock := true, featured := false,
    badge := "" }

/-- Sample raw record that passes the catalog filter. -/
def sampleRawGood : RawProduct :=
  { productId := "p1", name := "Shoe", description := "", priceBDT := "250",
    category := "", size := "", color := "", driveLink := "", imageFolder := "",
    mainImage := "", image1 := "", image2 := "", image3 := "", image4 := "",
    image5 := "", image6 := "" }

/-- Sample raw record with an empty product id, which the filter drops. -/
def sampleRawBad : RawProduct := { sampleRawGood with productId := "" }

/-! Helper lemmas shared by the claim theorems. -/

lemma getElem?_some_lt {α : Type} {l : List α} {i : Nat} {a : α}
    (h : l[i]? = some a) : i < l.length := by
  induction l generalizing i with
  | nil => simp at h
  | cons x xs ih =>
    cases i with
    | zero => simp
    | succ j =>
      have hj : xs[j]? = some a := by simpa using h
      simpa using Nat.succ_lt_succ (ih hj)

lemma getElem?_some_mem {α : Type} {l : List α} {i : Nat} {a : α}
    (h : l[i]? = some a) : a ∈ l := by
  induction l generalizing i with
  | nil => simp at h
  | cons x xs ih =>
    cases i with
    | zero =>
      simp only [List.getElem?_cons_zero, Option.some.injEq] at h
      simp [h]
    | succ j =>
      have hj : xs[j]? = some a := by simpa using h
      exact List.mem_cons_of_mem x (ih hj)

lemma removeWs_removeWs (s : List Char) : removeWs (removeWs s) = removeWs s := by
  unfold removeWs
  rw [List.filter_filter]
  simp

lemma quantityInRange_set {cart : List CartLine} (h : quantityInRange cart)
    {n : Nat} {x : CartLine} (hx : 1 ≤ x.quantity ∧ x.quantity ≤ 10) :
    quantityInRange (cart.set n x) := by
  intro l hl
  rcases List.mem_or_eq_of_mem_set hl with hm | he
  · exact h l hm
  · rw [he]; exact hx

lemma quantityInRange_eraseIdx {cart : List CartLine} (h : quantityInRange cart)
    (n : Nat) : quantityInRange (cart.eraseIdx n) := by
  intro l hl
  exact h l ((List.eraseIdx_sublist cart n).mem hl)

lemma updateQuantity_of_pos (cart : List CartLine) (index quantity : Int)
    (h1 : 0 ≤ index) (h2 : index < cart.length) (h3 : 0 < quantity) :
    ∃ l, cart[index.toNat]? = some l ∧
      updateQuantity cart index quantity =
        cart.set index.toNat { l with quantity := quantity } := by
  have hn : index.toNat < cart.length := by omega
  refine ⟨cart[index.toNat], List.getElem?_eq_getElem hn, ?_⟩
  unfold updateQuantity
  rw [if_pos ⟨h1, h2, h3⟩, List.getElem?_eq_getElem hn]

lemma updateQuantity_noop {cart : List CartLine} {index quantity : Int}
    (h : ¬(0 ≤ index ∧ index < cart.length ∧ 0 < quantity)) :
    updateQuantity cart index quantity = cart := by
  unfold updateQuantity
  rw [if_neg h]

lemma removeFromCart_inRange {cart : List CartLine} (h : quantityInRange cart)
    (i : Int) : quantityInRange (removeFromCart cart i) := by
  unfold removeFromCart
  by_cases hg : 0 ≤ i ∧ i < cart.length
  · rw [if_pos hg]; exact quantityInRange_eraseIdx h i.toNat
  · rw [if_neg hg]; exact h

lemma cartIndex_some {cart : List CartLine} {i : Int} {l : CartLine}
    (h : cartIndex cart i = some l) :
    0 ≤ i ∧ cart[i.toNat]? = some l := by
  unfold cartIndex at h
  by_cases h0 : 0 ≤ i
  · rw [if_pos h0] at h; exact ⟨h0, h⟩
  · rw [if_neg h0] at h; cases h

lemma calculateDeliveryFee_eq (a : List Char) (ha : a ≠ []) :
    calculateDeliveryFee a = if mentionsDhakaArea a then 80 else 150 := by
  have hne : a.isEmpty = false := by
    cases a with
    | nil => cases ha rfl
    | cons c cs => rfl
  unfold calculateDeliveryFee mentionsDhakaArea
  rw [hne]
  simp

lemma getDeliveryArea_eq (a : List Char) (ha : a ≠ []) :
    getDeliveryArea a = if mentionsDhakaArea a then "inside_dhaka" else "outside_dhaka" := by
  have hne : a.isEmpty = false := by
    cases a with
    | nil => cases ha rfl
    | cons c cs => rfl
  have hlists : dhakaAreasCheckout = dhakaAreas := rfl
  unfold getDeliveryArea mentionsDhakaArea
  rw [hne, hlists]
  simp

lemma addLoop_of_no_match (it : CartItem) (now : String) :
    ∀ cart : List CartLine, (∀ l ∈ cart, lineMatches it l = false) →
      addLoop it now cart = cart ++ [newCartLine it now] := by
  intro cart h
  induction cart with
  | nil => rfl
  | cons x xs ih =>
    have hx : lineMatches it x = false := h x (List.mem_cons_self x xs)
    have hxs := ih (fun l hl => h l (List.mem_cons_of_mem x hl))
    unfold addLoop
    rw [hx]
    simp [hxs]

lemma addLoop_first_match (it : CartItem) (now : String) :
    ∀ (pre : List CartLine) (l : CartLine) (post : List CartLine),
      (∀ m ∈ pre, lineMatches it m = false) → lineMatches it l = true →
      addLoop it now (pre ++ l :: post) =
        pre ++ { l with quantity := l.quantity + effQuantity it.quantity } :: post := by
  intro pre
  induction pre with
  | nil =>
    intro l post _ hl
    simp only [List.nil_append]
    unfold addLoop
    rw [hl]
    simp
  | cons x xs ih =>
    intro l post hpre hl
    have hx : lineMatches it x = false := hpre x (List.mem_cons_self x xs)
    have hxs := ih l post (fun m hm => hpre m (List.mem_cons_of_mem x hm)) hl
    show addLoop it now (x :: (xs ++ l :: post)) = _
    unfold addLoop
    rw [hx]
    simp [hxs]

lemma addLoop_positive {cart : List CartLine} {it : CartItem} {now : String}
    (hinv : quantityPositive cart) (he : 1 ≤ effQuantity it.quantity) :
    quantityPositive (addLoop it now cart) := by
  induction cart with
  | nil =>
    intro m hm
    simp only [addLoop, List.mem_singleton] at hm
    rw [hm]
    exact he
  | cons x xs ih =>
    have hx : 1 ≤ x.quantity := hinv x (List.mem_cons_self x xs)
    have hxs : quantityPositive xs := fun l hl => hinv l (List.mem_cons_of_mem x hl)
    intro m hm
    unfold addLoop at hm
    by_cases hmat : lineMatches it x = true
    · rw [if_pos hmat] at hm
      rcases List.mem_cons.mp hm with he2 | hm2
      · rw [he2]; show 1 ≤ x.quantity + effQuantity it.quantity; omega
      · exact hxs m hm2
    · rw [if_neg hmat] at hm
      rcases List.mem_cons.mp hm with he2 | hm2
      · rw [he2]; exact hx
      · exact ih hxs m hm2

lemma mem_processProducts (badge : RawProduct → String) (products : List RawProduct)
    (q : Product) :
    q ∈ processProducts badge products ↔
      ((∃ p ∈ products, mkProduct (badge p) p = q) ∧
        q.id ≠ "" ∧ q.name ≠ "" ∧ 0 < q.price) := by
  unfold processProducts
  rw [List.mem_filter]
  simp [List.mem_map]

/-! Claim theorems. -/

/-- C4: for a non-empty address, a case-insensitive hit on the fixed
Dhaka-area list gives fee 80 and tag inside_dhaka, a miss gives fee 150 and
tag outside_dhaka; the empty address gives fee 150 and tag outside; and the
two example addresses from the spec behave as stated. -/
theorem c4_delivery_fee_and_area_policy :
    (∀ a : List Char, a ≠ [] →
      (mentionsDhakaArea a = true →
        calculateDeliveryFee a = 80 ∧ getDeliveryArea a = "inside_dhaka") ∧
      (mentionsDhakaArea a = false →
        calculateDeliveryFee a = 150 ∧ getDeliveryArea a = "outside_dhaka")) ∧
    (calculateDeliveryFee [] = 150 ∧ getDeliveryArea [] = "outside") ∧
    (calculateDeliveryFee "12 Road, Dhanmondi, Dhaka".data = 80 ∧
      getDeliveryArea "12 Road, Dhanmondi, Dhaka".data = "inside_dhaka") ∧
    (calculateDeliveryFee "Village X, Rangpur".data = 150 ∧
      getDeliveryArea "Village X, Rangpur".data = "outside_dhaka") := by
  refine ⟨fun a ha => ⟨fun h => ?_, fun h => ?_⟩, by decide, by decide, by decide⟩
  · rw [calculateDeliveryFee_eq a ha, getDeliveryArea_eq a ha]
    simp [h]
  · rw [calculateDeliveryFee_eq a ha, getDeliveryArea_eq a ha]
    simp [h]

/-- Witness for C4 at the concrete address Dhaka. -/
theorem c4_witness :
    calculateDeliveryFee "Dhaka".data = 80 ∧
      getDeliveryArea "Dhaka".data = "inside_dhaka" :=
  (c4_delivery_fee_and_area_policy.1 "Dhaka".data (by decide)).1 (by decide)

/-- C5: the duplicated fee and area rules agree for every address: fee 80
exactly for tag inside_dhaka, fee 150 exactly for tags outside_dhaka or
outside. -/
theorem c5_fee_and_area_agree :
    ∀ a : List Char,
      (calculateDeliveryFee a = 80 ↔ getDeliveryArea a = "inside_dhaka") ∧
      (calculateDeliveryFee a = 150 ↔
        (getDeliveryArea a = "outside_dhaka" ∨ getDeliveryArea a = "outside")) := by
  intro a
  by_cases ha : a = []
  · subst ha; decide
  · rw [calculateDeliveryFee_eq a ha, getDeliveryArea_eq a ha]
    cases h : mentionsDhakaArea a <;> decide

/-- C6: a product is in the processProducts output exactly when it is the
image of some raw record and has a non-empty id, a non-empty name, and a
price strictly above 0; every record violating one of the three conditions
is excluded. -/
theorem c6_processProducts_inclusion :
    ∀ (badge : RawProduct → String) (products : List RawProduct),
      (∀ q : Product, q ∈ processProducts badge products ↔
        ((∃ p ∈ products, mkProduct (badge p) p = q) ∧
          q.id ≠ "" ∧ q.name ≠ "" ∧ 0 < q.price)) ∧
      (∀ p ∈ products,
        ¬((mkProduct (badge p) p).id ≠ "" ∧ (mkProduct (badge p) p).name ≠ "" ∧
            0 < (mkProduct (badge p) p).price) →
          mkProduct (badge p) p ∉ processProducts badge products) := by
  intro b ps
  refine ⟨fun q => mem_processProducts b ps q, fun p hp hbad hmem => ?_⟩
  exact hbad ((mem_processProducts b ps _).mp hmem).2

/-- Witness for C6 at a concrete good and bad raw record. -/
theorem c6_witness :
    mkProduct "b" sampleRawGood ∈
      processProducts (fun _ => "b") [sampleRawGood, sampleRawBad] ∧
    mkProduct "b" sampleRawBad ∉
      processProducts (fun _ => "b") [sampleRawGood, sampleRawBad] := by
  constructor
  · exact ((c6_processProducts_inclusion (fun _ => "b")
      [sampleRawGood, sampleRawBad]).1 _).mpr
      ⟨⟨sampleRawGood, by decide, rfl⟩, by decide, by decide, by decide⟩
  · exact (c6_processProducts_inclusion (fun _ => "b")
      [sampleRawGood, sampleRawBad]).2 sampleRawBad (by decide) (by decide)

/-- C7: updateQuantity sets the quantity of a valid index to any qty above 0
as given (no clamping, no upper bound), and is a silent no-op for qty at or
below 0 or for any index outside the range. -/
theorem c7_updateQuantity_contract :
    ∀ (cart : List CartLine) (index quantity : Int),
      (0 ≤ index → index < cart.length → 0 < quantity →
        ∃ l, cart[index.toNat]? = some l ∧
          updateQuantity cart index quantity =
            cart.set index.toNat { l with quantity := quantity }) ∧
      (quantity ≤ 0 → updateQuantity cart index quantity = cart) ∧
      (index < 0 → updateQuantity cart index quantity = cart) ∧
      ((cart.length : Int) ≤ index → updateQuantity cart index quantity = cart) := by
  intro cart i q
  refine ⟨fun h1 h2 h3 => updateQuantity_of_pos cart i q h1 h2 h3,
    fun h => updateQuantity_noop ?_, fun h => updateQuantity_noop ?_,
    fun h => updateQuantity_noop ?_⟩
  · rintro ⟨_, _, h3⟩; omega
  · rintro ⟨h1, _, _⟩; omega
  · rintro ⟨_, h2, _⟩; omega

/-- Witness for C7: quantity 50 is stored as given; quantity 0 is ignored. -/
theorem c7_witness :
    (∃ l, [sampleLine][(0 : Int).toNat]? = some l ∧
      updateQuantity [sampleLine] 0 50 =
        [sampleLine].set (0 : Int).toNat { l with quantity := 50 }) ∧
    updateQuantity [sampleLine] 0 0 = [sampleLine] :=
  ⟨(c7_updateQuantity_contract [sampleLine] 0 50).1 (by decide) (by decide) (by decide),
   (c7_updateQuantity_contract [sampleLine] 0 0).2.1 (by decide)⟩

/-- C9: updateQuantity at a valid index with qty above 0 changes only the
quantity field of that line: length, every other line, and all other fields
of the updated line are unchanged. -/
theorem c9_updateQuantity_frame :
    ∀ (cart : List CartLine) (index quantity : Int),
      0 ≤ index → index < cart.length → 0 < quantity →
      ((updateQuantity cart index quantity).length = cart.length) ∧
      (∀ j : Nat, j ≠ index.toNat →
        (updateQuantity cart index quantity)[j]? = cart[j]?) ∧
      (∀ l, cart[index.toNat]? = some l →
        ∃ lNew, (updateQuantity cart index quantity)[index.toNat]? = some lNew ∧
          lNew.quantity = quantity ∧ lNew.id = l.id ∧ lNew.name = l.name ∧
          lNew.price = l.price ∧ lNew.image = l.image ∧ lNew.color = l.color ∧
          lNew.size = l.size ∧ lNew.addedAt = l.addedAt) := by
  intro cart i q h1 h2 h3
  obtain ⟨l, hl, heq⟩ := updateQuantity_of_pos cart i q h1 h2 h3
  rw [heq]
  refine ⟨List.length_set cart i.toNat _, fun j hj => ?_, fun l0 hl0 => ?_⟩
  · rw [List.getElem?_set_ne]
    omega
  · have hll : l = l0 := by
      rw [hl] at hl0
      exact Option.some.inj hl0
    subst hll
    refine ⟨{ l with quantity := q }, ?_, rfl, rfl, rfl, rfl, rfl, rfl, rfl, rfl⟩
    rw [List.getElem?_set_self]
    omega

/-- Witness for C9: a neighbouring line is untouched. -/
theorem c9_witness :
    (updateQuantity [sampleLine, sampleLineB] 0 5)[1]? =
      [sampleLine, sampleLineB][1]? :=
  (c9_updateQuantity_frame [sampleLine, sampleLineB] 0 5
    (by decide) (by decide) (by decide)).2.1 1 (by decide)

/-- C8: the checkout phone validator rejects 123 and accepts 01712345678,
both through the raw utility and through the field-level check. -/
theorem c8_phone_validation_examples :
    validatePhone "123".data = false ∧ validatePhone "01712345678".data = true ∧
    validateField "phone" "123".data = false ∧
    validateField "phone" "01712345678".data = true := by decide

/-- C10: validatePhone is insensitive to whitespace in its input, and in
particular accepts 017 1234 5678 exactly as it accepts 01712345678. -/
theorem c10_validatePhone_whitespace_insensitive :
    (∀ s : List Char, validatePhone s = validatePhone (removeWs s)) ∧
    validatePhone "017 1234 5678".data = true ∧
    validatePhone "01712345678".data = true := by
  refine ⟨fun s => ?_, by decide, by decide⟩
  unfold validatePhone
  rw [removeWs_removeWs]

/-- Counterexample to C3 as stated: the added item carries quantity 0, so
the claim predicts the stored quantity 2 + 0 = 2, but `item.quantity || 1`
treats the falsy 0 as absent and the code stores 3. -/
theorem c3_counterexample :
    sampleItem0.quantity = some 0 ∧
    (addToCart [sampleLine] sampleItem0 "t2").map CartLine.quantity = [3] ∧
    sampleLine.quantity + 0 ≠ 3 := by decide

/-- C3 (amended): for an item with a non-empty id, addToCart bumps the first
line whose (id, color, size) strictly equals the item by the item quantity,
defaulting to 1 when it is absent or zero, and adds no line; with no
matching line it appends exactly one new line; items differing in color or
size from every line always append. -/
theorem c3_addToCart_merge_or_append :
    ∀ (cart : List CartLine) (it : CartItem) (now : String), it.id ≠ "" →
      (∀ (pre : List CartLine) (l : CartLine) (post : List CartLine),
        cart = pre ++ l :: post →
        (∀ m ∈ pre, lineMatches it m = false) → lineMatches it l = true →
        addToCart cart it now =
          pre ++ { l with quantity := l.quantity + effQuantity it.quantity } :: post) ∧
      ((∀ l ∈ cart, lineMatches it l = false) →
        addToCart cart it now = cart ++ [newCartLine it now]) ∧
      ((∀ l ∈ cart, l.color ≠ it.color ∨ l.size ≠ it.size) →
        addToCart cart it now = cart ++ [newCartLine it now]) := by
  intro cart it now hid
  refine ⟨fun pre l post hc hpre hl => ?_, fun h => ?_, fun h => ?_⟩
  · subst hc
    unfold addToCart
    rw [if_neg hid]
    exact addLoop_first_match it now pre l post hpre hl
  · unfold addToCart
    rw [if_neg hid]
    exact addLoop_of_no_match it now cart h
  · unfold addToCart
    rw [if_neg hid]
    refine addLoop_of_no_match it now cart (fun l hl => ?_)
    rcases h l hl with hc | hs
    · have hb : (l.color == it.color) = false := by simpa using hc
      simp [lineMatches, hb]
    · have hb : (l.size == it.size) = false := by simpa using hs
      simp [lineMatches, hb]

/-- Witness for C3 at a concrete merge and a concrete append. -/
theorem c3_witness :
    addToCart [sampleLineB] sampleItem1 "t2" =
      [sampleLineB, newCartLine sampleItem1 "t2"] ∧
    addToCart [sampleLine] sampleItem1 "t2" =
      [{ sampleLine with
          quantity := sampleLine.quantity + effQuantity sampleItem1.quantity }] := by
  constructor
  · have h := (c3_addToCart_merge_or_append [sampleLineB] sampleItem1 "t2"
      (by decide)).2.1 (by decide)
    simpa using h
  · have h := (c3_addToCart_merge_or_append [sampleLine] sampleItem1 "t2"
      (by decide)).1 [] sampleLine [] rfl (by simp) (by decide)
    simpa using h

/-- Counterexample to C1 as stated: a cart satisfying the [1,10] invariant
on which addToCart (a listed operation) merges one more unit into a line
already at 10, leaving quantity 11. -/
theorem c1_counterexample :
    quantityInRange [sampleLine10] ∧
    (addToCart [sampleLine10] sampleItem1 "t2").map CartLine.quantity = [11] ∧
    ¬quantityInRange (addToCart [sampleLine10] sampleItem1 "t2") := by decide

/-- C1 (amended): from a cart whose quantities all lie in [1,10],
removeFromCart, clearCart, increaseQuantity and decreaseQuantity keep every
quantity in [1,10], and decreasing a line at quantity 1 removes the line;
updateQuantity and addToCart (the latter for an effective item quantity of
at least 1) never leave a quantity at 0 or below, but do not respect the
upper bound 10. -/
theorem c1_cart_quantity_invariant :
    ∀ cart : List CartLine, quantityInRange cart →
      (∀ i : Int, quantityInRange (removeFromCart cart i)) ∧
      quantityInRange (clearCart cart) ∧
      (∀ (i : Int) (c2 : List CartLine), increaseQuantity cart i = some c2 →
        quantityInRange c2) ∧
      (∀ (i : Int) (c2 : List CartLine), decreaseQuantity cart i = some c2 →
        quantityInRange c2) ∧
      (∀ (i : Int) (l : CartLine), cartIndex cart i = some l → l.quantity = 1 →
        decreaseQuantity cart i = some (removeFromCart cart i)) ∧
      (∀ i q : Int, quantityPositive (updateQuantity cart i q)) ∧
      (∀ (it : CartItem) (now : String), 1 ≤ effQuantity it.quantity →
        quantityPositive (addToCart cart it now)) := by
  intro cart hinv
  refine ⟨removeFromCart_inRange hinv, ?_, ?_, ?_, ?_, ?_, ?_⟩
  · intro l hl
    simp [clearCart] at hl
  · intro i c2 h
    unfold increaseQuantity at h
    rcases Option.map_eq_some'.mp h with ⟨l, hidx, hc⟩
    obtain ⟨h0, hget⟩ := cartIndex_some hidx
    have hmem : l ∈ cart := getElem?_some_mem hget
    have hlt : i.toNat < cart.length := getElem?_some_lt hget
    have hbounds := hinv l hmem
    by_cases hq : l.quantity < 10
    · rw [if_pos hq] at hc
      obtain ⟨l2, hl2, heq⟩ :=
        updateQuantity_of_pos cart i (l.quantity + 1) h0 (by omega) (by omega)
      have hll : l = l2 := by
        rw [hget] at hl2
        exact Option.some.inj hl2
      subst hll
      rw [← hc, heq]
      refine quantityInRange_set hinv ⟨?_, ?_⟩ <;> simp <;> omega
    · rw [if_neg hq] at hc
      rw [← hc]
      exact hinv
  · intro i c2 h
    unfold decreaseQuantity at h
    rcases Option.map_eq_some'.mp h with ⟨l, hidx, hc⟩
    obtain ⟨h0, hget⟩ := cartIndex_some hidx
    have hmem : l ∈ cart := getElem?_some_mem hget
    have hlt : i.toNat < cart.length := getElem?_some_lt hget
    have hbounds := hinv l hmem
    by_cases hq : l.quantity > 1
    · rw [if_pos hq] at hc
      obtain ⟨l2, hl2, heq⟩ :=
        updateQuantity_of_pos cart i (l.quantity - 1) h0 (by omega) (by omega)
      have hll : l = l2 := by
        rw [hget] at hl2
        exact Option.some.inj hl2
      subst hll
      rw [← hc, heq]
      refine quantityInRange_set hinv ⟨?_, ?_⟩ <;> simp <;> omega
    · rw [if_neg hq] at hc
      rw [← hc]
      exact removeFromCart_inRange hinv i
  · intro i l hidx h1
    unfold decreaseQuantity
    rw [hidx]
    simp [h1]
  · intro i q
    by_cases hg : 0 ≤ i ∧ i < (cart.length : Int) ∧ 0 < q
    · obtain ⟨l, hl, heq⟩ := updateQuantity_of_pos cart i q hg.1 hg.2.1 hg.2.2
      rw [heq]
      intro m hm
      rcases List.mem_or_eq_of_mem_set hm with hm2 | he
      · exact (hinv m hm2).1
      · rw [he]
        have := hg.2.2
        simp
        omega
    · rw [updateQuantity_noop hg]
      exact fun m hm => (hinv m hm).1
  · intro it now he
    unfold addToCart
    by_cases hid : it.id = ""
    · rw [if_pos hid]
      exact fun m hm => (hinv m hm).1
    · rw [if_neg hid]
      exact addLoop_positive (fun m hm => (hinv m hm).1) he

/-- Witness for C1 at a concrete one-line cart. -/
theorem c1_witness : quantityInRange (removeFromCart [sampleLine] 0) :=
  (c1_cart_quantity_invariant [sampleLine] (by decide)).1 0

/-- C2 evaluated at its failing inputs: with catalog [sampleProduct] and a
cart holding one surviving and one vanished line, the vanished line is
dropped and the cart persisted, yet the notification flag is false (the
source compares validCart.length against itself after the reassignment);
and with a cart holding only the surviving line, the stored stale
name/price/image are not refreshed at all, because the refreshed list is
discarded when no line was dropped. -/
theorem c2_validateCartItems_bug :
    (validateCartItems [sampleProduct] [sampleLine, sampleLineB] =
      ([{ sampleLine with name := "New Name", price := 200, image := "img2" }],
        true, false)) ∧
    (validateCartItems [sampleProduct] [sampleLine] = ([sampleLine], false, false)) ∧
    sampleLine.price ≠ sampleProduct.price := by decide

/-- Witness for C5 at the concrete address Dhaka. -/
theorem c5_witness : getDeliveryArea "Dhaka".data = "inside_dhaka" :=
  (c5_fee_and_area_agree "Dhaka".data).1.mp (by decide)

/-- Witness for C10 at a concrete whitespace-carrying input. -/
theorem c10_witness :
    validatePhone "017 1234 5678".data =
      validatePhone (removeWs "017 1234 5678".data) :=
  c10_validatePhone_whitespace_insensitive.1 "017 1234 5678".data
